import Mathlib

/-!
Verification of the faulthandler crash-diagnostics layer.

The repository snapshot carries the test suite (`tests.py`) and packaging
scripts, but not the C implementation of the module itself; the engine below
is therefore modelled from the specification (`spec.md`), with the test suite
pinning the exact textual formats. Frames, thread traces, the trace writer,
the fatal-signal engine, the watchdog timer and the user registration engine
are embedded as executable Lean definitions, and the claims are settled as
theorems about them.
-/

set_option maxRecDepth 4000

namespace Faulthandler

/-- Modelled from the spec: the fixed maximum length of a function or file
name written by the Trace Writer (the C implementation is missing from the
snapshot; spec 4.1 fixes the bound at 500 characters). -/
def MAX_STRING_LENGTH : Nat := 500

/-- Modelled from the spec: truncation of a name at `MAX_STRING_LENGTH`
characters with a trailing ellipsis marker; names within the bound are
written unchanged (spec 4.1 and 6, test `test_truncate`). -/
def truncate (s : String) : String :=
  if s.length ≤ MAX_STRING_LENGTH then s
  else String.mk (s.data.take MAX_STRING_LENGTH) ++ "..."

/-- Modelled from the spec: one call-stack entry delivered by the Frame
Source: file or module name, function name, line number (spec 3). -/
structure Frame where
  file : String
  func : String
  line : Nat

/-- Modelled from the spec: one rendered frame line of the dump,
`  File "<file>", line <N> in <function>`, with both names truncated
(spec 6, tests `check_dump_traceback` and `test_truncate`). -/
def frameLine (f : Frame) : String :=
  "  File \"" ++ truncate f.file ++ "\", line " ++ toString f.line ++
    " in " ++ truncate f.func

/-- Modelled from the spec: the Frame Source's view of one thread: an opaque
thread identifier and the active frames, ordered outermost caller first
(spec 3). -/
structure ThreadTrace where
  threadId : Nat
  frames : List Frame

/-- Modelled from the spec: thread identifiers are rendered in hexadecimal
with a `0x` marker (test regexes match `0x[0-9a-f]+`). -/
def hexId (n : Nat) : String := "0x" ++ String.mk (Nat.toDigits 16 n)

/-- Modelled from the spec: the frame list of one thread in display order,
innermost call first (spec 3: display order is most recent call first). -/
def stackLines (frames : List Frame) : List String :=
  frames.reverse.map frameLine

/-- Modelled from the spec: the fixed caption of a single-thread dump
(spec 6, test `check_dump_traceback`). -/
def stackCaption : String := "Stack (most recent call first):"

/-- Modelled from the spec: the one-line identifying label that precedes a
thread's block in all-threads mode (spec 6, test
`check_dump_traceback_threads`). -/
def threadLabel (isCurrent : Bool) (tid : Nat) : String :=
  (if isCurrent then "Current thread " else "Thread ") ++ hexId tid ++
    " (most recent call first):"

/-- Modelled from the spec: one thread's block in all-threads mode: its label
line followed by its frame lines (spec 4.1). -/
def threadBlock (isCurrent : Bool) (t : ThreadTrace) : List String :=
  threadLabel isCurrent t.threadId :: stackLines t.frames

/-- Modelled from the spec: blocks of the all-threads dump joined with
exactly one blank separator line between consecutive blocks (spec 4.1, 6). -/
def joinBlocks : List (List String) → List String
  | [] => []
  | [b] => b
  | b :: bs => b ++ "" :: joinBlocks bs

/-- Modelled from the spec: the all-threads dump: every non-current thread's
block first, the current thread's block last (spec 4.1, 6). -/
def dumpThreads (others : List ThreadTrace) (current : ThreadTrace) : List String :=
  joinBlocks (others.map (threadBlock false) ++ [threadBlock true current])

/-- Modelled from the spec: the Trace Writer's traceback body: the all-threads
form, or the single-thread form with the fixed caption and no identifying
label (spec 4.1, 6). -/
def dumpTracebackLines (allThreads : Bool) (others : List ThreadTrace)
    (current : ThreadTrace) : List String :=
  if allThreads then dumpThreads others current
  else stackCaption :: stackLines current.frames

/-- Modelled from the spec: the supported fatal signal kinds (spec 4.2). -/
inductive FatalSignal
  | sigsegv
  | sigabrt
  | sigfpe
  | sigbus
  | sigill

/-- Modelled from the spec: the exact reason string naming each fault in the
`Fatal Python error:` header (spec 4.2, tests `test_sigsegv` .. `test_sigill`). -/
def reason : FatalSignal → String
  | .sigsegv => "Segmentation fault"
  | .sigabrt => "Aborted"
  | .sigfpe => "Floating point exception"
  | .sigbus => "Bus error"
  | .sigill => "Illegal instruction"

/-- Modelled from the spec: the conventional signal number of each fatal
signal kind (spec 4.2: the process terminates with the conventional exit
status for that signal). -/
def signum : FatalSignal → Nat
  | .sigsegv => 11
  | .sigabrt => 6
  | .sigfpe => 8
  | .sigbus => 7
  | .sigill => 4

/-- Modelled from the spec: the conventional nonzero exit status of a process
killed by a signal, 128 plus the signal number (spec 7: on a true fatal signal
the process terminates via the signal's default disposition). -/
def fatalExitStatus (sig : FatalSignal) : Nat := 128 + signum sig

/-- Modelled from the spec: the process-wide state of the fatal signal engine
(spec 3, GlobalState). -/
structure GlobalState where
  enabled : Bool
  allThreads : Bool
  header : Option String

/-- Modelled from the spec: initial process state, all-disabled (spec 9 and
test `test_disabled_by_default`). -/
def initialState : GlobalState := ⟨false, true, none⟩

/-- Modelled from the spec: the `Fatal Python error: <reason>` header line,
with the configured custom header appended after the reason (spec 4.2, test
`test_custom_header_on_signal`: the expected line is
`Fatal Python error: Segmentation fault: My header text`). -/
def fatalHeaderLine (gs : GlobalState) (sig : FatalSignal) : String :=
  match gs.header with
  | some h => "Fatal Python error: " ++ reason sig ++ ": " ++ h
  | none => "Fatal Python error: " ++ reason sig

/-- Modelled from the spec: delivery of a fatal signal: when enabled, the
header line, a blank line, then the traceback body; when disabled, no dump at
all (spec 4.2 and 6, tests `check_fatal_error` and `test_disable`). -/
def fatalOutput (gs : GlobalState) (sig : FatalSignal) (others : List ThreadTrace)
    (current : ThreadTrace) : Option (List String) :=
  if gs.enabled then
    some (fatalHeaderLine gs sig :: "" ::
      dumpTracebackLines gs.allThreads others current)
  else none

/-- Modelled from the spec: the calls that mutate the fatal engine's state,
plus OS delivery of a fatal signal as an external event (spec 4.2, 9). -/
inductive FHEvent
  | enable (allThreads : Bool) (header : Option String)
  | disable
  | deliver (sig : FatalSignal)

/-- Modelled from the spec: the fatal engine's state machine: `enable` sets
the state, `disable` clears the enabled flag, delivery reads the state and
produces the dump when enabled (spec 4.2). -/
def applyEvent (others : List ThreadTrace) (current : ThreadTrace)
    (gs : GlobalState) : FHEvent → GlobalState × Option (List String)
  | .enable a h => (⟨true, a, h⟩, none)
  | .disable => (⟨false, gs.allThreads, gs.header⟩, none)
  | .deliver sig => (gs, fatalOutput gs sig others current)

/-- Modelled from the spec: a whole sequence of enable/disable/delivery
events run from a given state, collecting each event's dump output. -/
def runEvents (others : List ThreadTrace) (current : ThreadTrace)
    (gs : GlobalState) : List FHEvent → GlobalState × List (Option (List String))
  | [] => (gs, [])
  | e :: es =>
      ((runEvents others current (applyEvent others current gs e).1 es).1,
        (applyEvent others current gs e).2 ::
          (runEvents others current (applyEvent others current gs e).1 es).2)

/-- Modelled from the spec: a nonnegative number rendered in decimal on two
digits, zero-padded, for the clock-style timeout rendering. -/
def pad2 (n : Nat) : String :=
  if n < 10 then "0" ++ toString n else toString n

/-- Modelled from the spec: a timeout duration in seconds rendered as
`H:MM:SS`, matching the `str(datetime.timedelta(seconds=timeout))` form the
test suite expects in the default watchdog header (test
`_check_dump_traceback_later`, `Timeout (0:00:01)!`). -/
def formatTimeout (secs : Nat) : String :=
  toString (secs / 3600) ++ ":" ++ pad2 (secs % 3600 / 60) ++ ":" ++ pad2 (secs % 60)

/-- Modelled from the spec: the single header line written each time the
watchdog fires: the configured header when one was given, otherwise the
default `Timeout (<timeout>)!` line (spec 4.3). -/
def timeoutHeader (timeout : Nat) (header : Option String) : String :=
  match header with
  | some h => h
  | none => "Timeout (" ++ formatTimeout timeout ++ ")!"

/-- Modelled from the spec: the state of an armed watchdog: its interval in
ticks, whether it re-arms after firing, its optional header, and how many
ticks remain before it fires (spec 3, WatchdogState). -/
structure Watchdog where
  timeout : Nat
  repeats : Bool
  header : Option String
  remaining : Nat

/-- Modelled from the spec: the header line of a concrete watchdog state. -/
def watchdogHeaderLine (w : Watchdog) : String :=
  timeoutHeader w.timeout w.header

/-- Modelled from the spec: `dump_traceback_later` arms the single
process-wide timer to fire after `timeout` ticks (spec 4.3). -/
def armWatchdog (timeout : Nat) (repeats : Bool) (header : Option String) :
    Option Watchdog :=
  some ⟨timeout, repeats, header, timeout⟩

/-- Modelled from the spec: `cancel_dump_traceback_later` disarms whatever is
armed; a no-op when nothing is (spec 4.3). -/
def cancelWatchdog (_ : Option Watchdog) : Option Watchdog := none

/-- Modelled from the spec: one tick of the timer: an armed watchdog counts
down and, on expiry, emits its header line followed by the traceback `body`,
then re-arms itself when repeating or clears itself when one-shot (spec 4.3). -/
def tick (body : List String) : Option Watchdog → Option Watchdog × Option (List String)
  | none => (none, none)
  | some w =>
    if w.remaining ≤ 1 then
      ((if w.repeats then some ⟨w.timeout, w.repeats, w.header, w.timeout⟩ else none),
        some (watchdogHeaderLine w :: body))
    else
      (some ⟨w.timeout, w.repeats, w.header, w.remaining - 1⟩, none)

/-- Modelled from the spec: `n` ticks of the timer from a given watchdog
state, collecting every dump emitted along the way in order. -/
def runTicks (body : List String) : Nat → Option Watchdog → Option Watchdog × List (List String)
  | 0, s => (s, [])
  | n + 1, s =>
      ((runTicks body n (tick body s).1).1,
        (tick body s).2.toList ++ (runTicks body n (tick body s).1).2)

/-- Modelled from the spec: one entry of the signal-number-keyed registration
map (spec 3, RegisteredHandler; the captured previous OS handler is passed
separately to delivery as an opaque state transformer). -/
structure RegisteredHandler where
  signalNumber : Nat
  allThreads : Bool
  chain : Bool
  header : Option String

/-- Modelled from the spec: delivery of a registered user signal: write the
optional header and the traceback (dump only), then, when `chain` is true,
invoke the previously-installed handler on the observable state; the third
component records that this path never re-raises or terminates the process
(spec 4.4). -/
def deliverRegistered {α : Type} (h : RegisteredHandler) (prevHandler : α → α)
    (others : List ThreadTrace) (current : ThreadTrace) (s : α) :
    List String × α × Bool :=
  ((match h.header with | some hd => [hd] | none => []) ++
      dumpTracebackLines h.allThreads others current,
    (if h.chain then prevHandler s else s),
    false)

/-- Modelled from the spec: resolution of the output destination: an
explicitly passed file wins; otherwise the process standard-error stream is
used, and if that stream object is unset the call fails synchronously with
exactly the message `sys.stderr is None` (test `test_stderr_None`). -/
def resolveOutput (file : Option Nat) (stderr : Option Nat) : Except String Nat :=
  match file with
  | some f => Except.ok f
  | none =>
    match stderr with
    | some s => Except.ok s
    | none => Except.error "sys.stderr is None"

/-- Modelled from the spec: the `enable` entry point: resolves its output
destination first and only then installs the fatal handlers by setting the
global state (spec 4.2). -/
def enableAPI (file stderr : Option Nat) (allThreads : Bool)
    (header : Option String) (_gs : GlobalState) : Except String GlobalState :=
  match resolveOutput file stderr with
  | Except.error e => Except.error e
  | Except.ok _ => Except.ok ⟨true, allThreads, header⟩

/-- Modelled from the spec: the `dump_traceback` entry point: resolves its
output destination first and only then produces the dump (spec 4.1). -/
def dumpTracebackAPI (file stderr : Option Nat) (allThreads : Bool)
    (others : List ThreadTrace) (current : ThreadTrace) : Except String (List String) :=
  match resolveOutput file stderr with
  | Except.error e => Except.error e
  | Except.ok _ => Except.ok (dumpTracebackLines allThreads others current)

/-- Modelled from the spec: the `dump_traceback_later` entry point: resolves
its output destination first and only then arms the watchdog (spec 4.3). -/
def dumpTracebackLaterAPI (file stderr : Option Nat) (timeout : Nat)
    (repeats : Bool) (header : Option String) : Except String (Option Watchdog) :=
  match resolveOutput file stderr with
  | Except.error e => Except.error e
  | Except.ok _ => Except.ok (armWatchdog timeout repeats header)

/-- Modelled from the spec: the `register` entry point: resolves its output
destination first and only then installs the handler entry for the signal
number (spec 4.4). -/
def registerAPI (file stderr : Option Nat) (signalNumber : Nat)
    (allThreads chain : Bool) (header : Option String)
    (regs : List RegisteredHandler) : Except String (List RegisteredHandler) :=
  match resolveOutput file stderr with
  | Except.error e => Except.error e
  | Except.ok _ => Except.ok (⟨signalNumber, allThreads, chain, header⟩ :: regs)

/-- Concrete 600-character function name used to exercise truncation, as in
test `test_truncate`. -/
def longName : String := String.mk (List.replicate 600 'x')

/-- Concrete frame used to instantiate rendered-line statements. -/
def sampleFrame : Frame := ⟨"file.py", "funcB", 7⟩

end Faulthandler

namespace Faulthandler

lemma frameLine_head (f : Frame) :
    (frameLine f).data.head? = ("  File" : String).data.head? := rfl

lemma threadLabel_head (b : Bool) (tid : Nat) :
    (threadLabel b tid).data.head? = some (if b then 'C' else 'T') := by
  cases b <;> rfl

lemma threadLabel_ne_stackCaption (b : Bool) (tid : Nat) :
    threadLabel b tid ≠ stackCaption := by
  intro h
  have h2 := congrArg (fun s => s.data.head?) h
  simp only [threadLabel_head] at h2
  cases b <;> exact absurd h2 (by decide)

lemma threadLabel_ne_frameLine (b : Bool) (tid : Nat) (f : Frame) :
    threadLabel b tid ≠ frameLine f := by
  intro h
  have h2 := congrArg (fun s => s.data.head?) h
  simp only [threadLabel_head, frameLine_head] at h2
  cases b <;> exact absurd h2 (by decide)

lemma threadLabel_ne_blank (b : Bool) (tid : Nat) : threadLabel b tid ≠ "" := by
  intro h
  have h2 := congrArg (fun s => s.data.head?) h
  simp only [threadLabel_head] at h2
  cases b <;> exact absurd h2 (by decide)

lemma frameLine_ne_blank (f : Frame) : frameLine f ≠ "" := by
  intro h
  have h2 := congrArg (fun s => s.data.head?) h
  simp only [frameLine_head] at h2
  exact absurd h2 (by decide)

lemma blank_notin_block (b : Bool) (t : ThreadTrace) : "" ∉ threadBlock b t := by
  intro hm
  rcases List.mem_cons.mp hm with h1 | h1
  · exact threadLabel_ne_blank b t.threadId h1.symm
  · rcases List.mem_map.mp
      (show "" ∈ List.map frameLine t.frames.reverse from h1) with ⟨f, _, hf⟩
    exact frameLine_ne_blank f hf

lemma runEvents_enabled_after_disable (others : List ThreadTrace)
    (current : ThreadTrace) (gs : GlobalState) (es : List FHEvent) :
    ((runEvents others current gs (es ++ [FHEvent.disable])).1).enabled = false := by
  induction es generalizing gs with
  | nil => rfl
  | cons e es ih => exact ih ((applyEvent others current gs e).1)

/-- Claim C1: for every supported fatal signal kind, if the fatal handler is
enabled when the signal is delivered (no custom header configured), the dump
begins with the line `Fatal Python error: <reason>` naming that fault,
followed by a blank line and then the stack caption and the frame lines, and
the process terminates with the nonzero signal-indicated exit status
128 plus the signal number. -/
theorem claim_C1 (sig : FatalSignal) (allThreads : Bool) (current : ThreadTrace) :
    fatalOutput ⟨true, allThreads, none⟩ sig [] current =
      some (("Fatal Python error: " ++ reason sig) :: "" ::
        (if allThreads then threadLabel true current.threadId else stackCaption) ::
        stackLines current.frames) ∧
    fatalExitStatus sig = 128 + signum sig ∧
    0 < fatalExitStatus sig := by
  refine ⟨?_, rfl, by unfold fatalExitStatus; omega⟩
  cases allThreads <;>
    simp [fatalOutput, fatalHeaderLine, dumpTracebackLines, dumpThreads,
      joinBlocks, threadBlock]

/-- Claim C2: after `disable`, delivery of any fatal signal kind produces no
dump output at all, whatever enable/disable sequence came before (the process
still terminates with the signal's nonzero status), and a subsequent `enable`
restores the dump output. -/
theorem claim_C2 (others : List ThreadTrace) (current : ThreadTrace)
    (es : List FHEvent) (sig : FatalSignal) (a : Bool) (h : Option String) :
    (applyEvent others current
        (runEvents others current initialState (es ++ [FHEvent.disable])).1
        (FHEvent.deliver sig)).2 = none ∧
    (applyEvent others current
        (applyEvent others current
          (runEvents others current initialState (es ++ [FHEvent.disable])).1
          (FHEvent.enable a h)).1
        (FHEvent.deliver sig)).2 =
      some (fatalHeaderLine ⟨true, a, h⟩ sig :: "" ::
        dumpTracebackLines a others current) ∧
    0 < fatalExitStatus sig := by
  refine ⟨?_, rfl, by unfold fatalExitStatus; omega⟩
  have hdis := runEvents_enabled_after_disable others current initialState es
  simp [applyEvent, fatalOutput, hdis]

/-- Claim C3: a single-thread explicit dump over a call chain
main, funcA, funcB is exactly the caption `Stack (most recent call first):`
followed by the three frame lines in callee-to-caller order (funcB, funcA,
module), each of the form `  File "<file>", line <N> in <function>` carrying
that frame's recorded line, and no thread-identifying label line occurs in
the output. -/
theorem claim_C3 (others : List ThreadTrace) (tid : Nat)
    (fMain fA fB f : Frame) (bL : Bool) (tidL : Nat) :
    dumpTracebackLines false others ⟨tid, [fMain, fA, fB]⟩ =
      [stackCaption, frameLine fB, frameLine fA, frameLine fMain] ∧
    frameLine f = "  File \"" ++ truncate f.file ++ "\", line " ++
      toString f.line ++ " in " ++ truncate f.func ∧
    List.count (threadLabel bL tidL)
      (dumpTracebackLines false others ⟨tid, [fMain, fA, fB]⟩) = 0 := by
  refine ⟨rfl, rfl, ?_⟩
  have e : dumpTracebackLines false others ⟨tid, [fMain, fA, fB]⟩ =
      [stackCaption, frameLine fB, frameLine fA, frameLine fMain] := rfl
  rw [e, List.count_eq_zero]
  intro hm
  rcases List.mem_cons.mp hm with h1 | hm
  · exact threadLabel_ne_stackCaption bL tidL h1
  rcases List.mem_cons.mp hm with h1 | hm
  · exact threadLabel_ne_frameLine bL tidL fB h1
  rcases List.mem_cons.mp hm with h1 | hm
  · exact threadLabel_ne_frameLine bL tidL fA h1
  rcases List.mem_cons.mp hm with h1 | hm
  · exact threadLabel_ne_frameLine bL tidL fMain h1
  · simp at hm

/-- Claim C4: a name longer than 500 characters is rendered as exactly its
first 500 characters followed by the trailing marker `...`, a name of at most
500 characters is rendered unchanged, and every frame line renders both its
file name and its function name through this truncation. -/
theorem claim_C4 (s t : String) (f : Frame)
    (hs : MAX_STRING_LENGTH < s.length) (ht : t.length ≤ MAX_STRING_LENGTH) :
    truncate s = String.mk (s.data.take MAX_STRING_LENGTH) ++ "..." ∧
    truncate t = t ∧
    frameLine f = "  File \"" ++ truncate f.file ++ "\", line " ++
      toString f.line ++ " in " ++ truncate f.func := by
  refine ⟨?_, ?_, rfl⟩
  · unfold truncate
    rw [if_neg (by omega)]
  · unfold truncate
    rw [if_pos ht]

/-- Claim C5: an all-threads dump with exactly one extra live thread is two
labelled blocks: the non-current thread's block first under the label
`Thread <ID> (most recent call first):`, the current thread's block last under
`Current thread <ID> (most recent call first):`, with exactly one blank line
separating the two blocks. -/
theorem claim_C5 (t c : ThreadTrace) :
    dumpThreads [t] c =
      (threadLabel false t.threadId :: stackLines t.frames) ++
        "" :: threadLabel true c.threadId :: stackLines c.frames ∧
    threadLabel false t.threadId =
      "Thread " ++ hexId t.threadId ++ " (most recent call first):" ∧
    threadLabel true c.threadId =
      "Current thread " ++ hexId c.threadId ++ " (most recent call first):" ∧
    List.count "" (dumpThreads [t] c) = 1 := by
  refine ⟨rfl, rfl, rfl, ?_⟩
  have e : dumpThreads [t] c = threadBlock false t ++ "" :: threadBlock true c := rfl
  rw [e, List.count_append, List.count_cons,
    List.count_eq_zero.mpr (blank_notin_block false t),
    List.count_eq_zero.mpr (blank_notin_block true c)]
  simp

/-- Claim C9: when `enable` is configured with a custom header and a fatal
signal fires, the dump's first line is the `Fatal Python error: <reason>`
header with the custom header text placed immediately after the reason
(separated by a colon), appearing exactly once, and the rest of the dump is
unchanged. -/
theorem claim_C9 (sig : FatalSignal) (allThreads : Bool) (hd : String)
    (others : List ThreadTrace) (current : ThreadTrace) :
    fatalOutput ⟨true, allThreads, some hd⟩ sig others current =
      some ((fatalHeaderLine ⟨true, allThreads, none⟩ sig ++ ": " ++ hd) :: "" ::
        dumpTracebackLines allThreads others current) ∧
    fatalHeaderLine ⟨true, allThreads, none⟩ sig =
      "Fatal Python error: " ++ reason sig :=
  ⟨rfl, rfl⟩

lemma runTicks_none (body : List String) (n : Nat) :
    runTicks body n none = (none, []) := by
  induction n with
  | zero => rfl
  | succ n ih => simp [runTicks, tick, ih]

lemma runTicks_add (body : List String) (a b : Nat) (s : Option Watchdog) :
    runTicks body (a + b) s =
      ((runTicks body b (runTicks body a s).1).1,
        (runTicks body a s).2 ++ (runTicks body b (runTicks body a s).1).2) := by
  induction a generalizing s with
  | zero => simp [runTicks]
  | succ a ih =>
      have hr : a + 1 + b = (a + b) + 1 := by omega
      rw [hr]
      simp only [runTicks]
      rw [ih]
      simp [List.append_assoc]

lemma runNoFire (body : List String) (j t m : Nat) (rep : Bool)
    (h : Option String) (hj : j < m) :
    runTicks body j (some ⟨t, rep, h, m⟩) = (some ⟨t, rep, h, m - j⟩, []) := by
  induction j generalizing m with
  | zero => simp [runTicks]
  | succ j ih =>
      have hc : ¬ (m ≤ 1) := by omega
      have e1 : m - 1 - j = m - (j + 1) := by omega
      simp only [runTicks, tick, hc, if_false]
      rw [ih (m - 1) (by omega)]
      simp [e1]

lemma runTicks_succ (body : List String) (n : Nat) (s : Option Watchdog) :
    runTicks body (n + 1) s =
      ((runTicks body n (tick body s).1).1,
        (tick body s).2.toList ++ (runTicks body n (tick body s).1).2) := rfl

lemma runCountdown (body : List String) (t : Nat) (rep : Bool)
    (h : Option String) (m : Nat) :
    runTicks body (m + 1) (some ⟨t, rep, h, m + 1⟩) =
      ((if rep then some ⟨t, rep, h, t⟩ else none),
        [timeoutHeader t h :: body]) := by
  induction m with
  | zero =>
      cases rep <;> simp [runTicks, tick, watchdogHeaderLine, runTicks_none]
  | succ m ih =>
      have hc : ¬ (m + 1 + 1 ≤ 1) := by omega
      have htick : tick body (some ⟨t, rep, h, m + 1 + 1⟩) =
          (some ⟨t, rep, h, m + 1⟩, none) := by
        simp [tick, hc]
      rw [runTicks_succ, htick]
      simp only [Option.toList_none, List.nil_append]
      rw [ih]

lemma repeatCount (body : List String) (t : Nat) (h : Option String) (k : Nat) :
    (runTicks body ((t + 1) * k) (some ⟨t + 1, true, h, t + 1⟩)).2.length = k := by
  induction k with
  | zero => simp [runTicks]
  | succ k ih =>
      have e : (t + 1) * (k + 1) = (t + 1) + (t + 1) * k := by ring
      rw [e, runTicks_add, runCountdown]
      simp [ih]

lemma dumps_eq_header (body : List String) (t : Nat) (rep : Bool)
    (h : Option String) (n : Nat) :
    ∀ m, ∀ d ∈ (runTicks body n (some ⟨t, rep, h, m⟩)).2,
      d = timeoutHeader t h :: body := by
  induction n with
  | zero =>
      intro m d hd
      simp [runTicks] at hd
  | succ n ih =>
      intro m d hd
      by_cases hc : m ≤ 1
      · simp only [runTicks, tick, hc, if_true] at hd
        rcases List.mem_append.mp hd with h1 | h1
        · simpa [watchdogHeaderLine] using h1
        · cases rep with
          | false =>
              rw [if_neg (by simp)] at h1
              rw [runTicks_none] at h1
              simp at h1
          | true =>
              rw [if_pos rfl] at h1
              exact ih t d h1
      · simp only [runTicks, tick, hc, if_false] at hd
        exact ih (m - 1) d (by simpa using hd)

/-- Claim C6: arming the watchdog one-shot with no cancellation produces
exactly one dump, emitted at the timeout tick and none earlier (so within
timeout times the interval from one to two); arming it repeating with no
cancellation produces one dump per elapsed interval; cancelling before expiry
produces zero dumps however long the process then runs. -/
theorem claim_C6 (t m k n : Nat) (repAny : Bool) (h : Option String)
    (body : List String) :
    (runTicks body ((t + 1) + m) (armWatchdog (t + 1) false h)).2 =
      [timeoutHeader (t + 1) h :: body] ∧
    (runTicks body t (armWatchdog (t + 1) false h)).2 = [] ∧
    (runTicks body ((t + 1) * k) (armWatchdog (t + 1) true h)).2.length = k ∧
    (runTicks body n (cancelWatchdog (armWatchdog (t + 1) repAny h))).2 = [] := by
  refine ⟨?_, ?_, repeatCount body t h k, ?_⟩
  · rw [show armWatchdog (t + 1) false h = some ⟨t + 1, false, h, t + 1⟩ from rfl,
      runTicks_add, runCountdown]
    simp [runTicks_none]
  · rw [show armWatchdog (t + 1) false h = some ⟨t + 1, false, h, t + 1⟩ from rfl,
      runNoFire body t (t + 1) (t + 1) false h (by omega)]
  · rw [show cancelWatchdog (armWatchdog (t + 1) repAny h) = none from rfl,
      runTicks_none]

/-- Claim C7: every dump the armed watchdog ever emits is exactly one header
line followed by the traceback: the header configured in
`dump_traceback_later` when one was given, otherwise the default line
`Timeout (<timeout>)!` rendering the configured timeout, and never the other. -/
theorem claim_C7 (timeout : Nat) (rep : Bool) (h : Option String)
    (custom : String) (body : List String) (n : Nat) :
    (runTicks body n (armWatchdog timeout rep h)).2 =
      List.replicate (runTicks body n (armWatchdog timeout rep h)).2.length
        (timeoutHeader timeout h :: body) ∧
    timeoutHeader timeout (some custom) = custom ∧
    timeoutHeader timeout none = "Timeout (" ++ formatTimeout timeout ++ ")!" := by
  refine ⟨?_, rfl, rfl⟩
  rw [List.eq_replicate_iff]
  exact ⟨rfl, fun d hd => dumps_eq_header body timeout rep h n timeout d hd⟩

/-- Claim C8: delivering a signal registered with `chain` true both writes
the dump (optional header, then the traceback) and invokes the
previously-installed handler on the observable state, and the delivery path
itself neither re-raises nor terminates the process. -/
theorem claim_C8 {α : Type} (prevHandler : α → α) (s : α) (sn : Nat)
    (allThreads : Bool) (hd : Option String) (others : List ThreadTrace)
    (current : ThreadTrace) :
    (deliverRegistered ⟨sn, allThreads, true, hd⟩ prevHandler others current s).1 =
      (match hd with | some x => [x] | none => []) ++
        dumpTracebackLines allThreads others current ∧
    (deliverRegistered ⟨sn, allThreads, true, hd⟩ prevHandler others current s).2.1 =
      prevHandler s ∧
    (deliverRegistered ⟨sn, allThreads, true, hd⟩ prevHandler others current s).2.2 =
      false :=
  ⟨rfl, rfl, rfl⟩

/-- Claim C10: when the standard-error stream object is unset and no explicit
file is passed, `enable`, `dump_traceback`, `dump_traceback_later` and
`register` each fail synchronously with exactly the message
`sys.stderr is None`, producing no dump and installing no state. -/
theorem claim_C10 (allThreads chain repeats : Bool) (header : Option String)
    (gs : GlobalState) (timeout sn : Nat) (others : List ThreadTrace)
    (current : ThreadTrace) (regs : List RegisteredHandler) :
    enableAPI none none allThreads header gs = Except.error "sys.stderr is None" ∧
    dumpTracebackAPI none none allThreads others current =
      Except.error "sys.stderr is None" ∧
    dumpTracebackLaterAPI none none timeout repeats header =
      Except.error "sys.stderr is None" ∧
    registerAPI none none sn allThreads chain header regs =
      Except.error "sys.stderr is None" :=
  ⟨rfl, rfl, rfl, rfl⟩

/-- Witness for claim C4 at a concrete 600-character name and a short name. -/
theorem claim_C4_witness :
    MAX_STRING_LENGTH < longName.length ∧
    ("funcA" : String).length ≤ MAX_STRING_LENGTH ∧
    (truncate longName = String.mk (longName.data.take MAX_STRING_LENGTH) ++ "..." ∧
      truncate "funcA" = "funcA" ∧
      frameLine sampleFrame = "  File \"" ++ truncate sampleFrame.file ++
        "\", line " ++ toString sampleFrame.line ++ " in " ++
        truncate sampleFrame.func) :=
  ⟨by decide, by decide, claim_C4 longName "funcA" sampleFrame (by decide) (by decide)⟩

end Faulthandler
